import Mathlib

/-!
Shallow embedding of the build and response configuration layer of the
Internetblueprintsite repository (src/next.config.js), together with theorems
that check the specification claims about that layer.

The configuration file is a static object literal with five top-level fields:
eslint, images, headers, experimental and webpack.  Each field is embedded as
a Lean definition below, transcribed from the source.  Behavior of the
surrounding framework that is not part of this repository (path-pattern
matching, the image-serving runtime, the build lint gate) is modelled from
the specification and marked as such in its doc comment.
-/

/-- One HTTP response header as written in the configuration: a key and a
value (src/next.config.js lines 17-24). -/
structure Header where
  key : String
  value : String
deriving DecidableEq, Repr

/-- One header rule of the configuration: a path pattern `source` and the
list of headers attached to responses whose path matches it
(src/next.config.js lines 14-25). -/
structure HeaderRule where
  source : String
  headers : List Header
deriving DecidableEq, Repr

/-- The eslint section of the configuration (src/next.config.js lines 5-7). -/
structure EslintConfig where
  ignoreDuringBuilds : Bool
deriving DecidableEq, Repr

/-- The images section of the configuration (src/next.config.js lines 8-11). -/
structure ImagesConfig where
  unoptimized : Bool
  domains : List String
deriving DecidableEq, Repr

/-- The experimental section of the configuration
(src/next.config.js lines 29-31). -/
structure ExperimentalConfig where
  serverComponentsExternalPackages : List String
deriving DecidableEq, Repr

/-- The single header rule returned by the headers function: source pattern
"/(.*)" carrying the two cross-origin headers (src/next.config.js
lines 14-25). -/
def allPathsRule : HeaderRule :=
  { source := "/(.*)"
    headers :=
      [ { key := "Cross-Origin-Embedder-Policy", value := "unsafe-none" }
      , { key := "Cross-Origin-Opener-Policy", value := "same-origin-allow-popups" } ] }

/-- The headers function of the configuration (src/next.config.js
lines 12-28).  In the source it is an async function of no arguments that
returns the fixed one-element rule list; the embedding takes a unit argument
so that one call of the function is an explicit event. -/
def headersFn (_ : Unit) : List HeaderRule := [allPathsRule]

/-- JSON serialization of a boolean, as produced by JSON.stringify applied to
a boolean literal (used at src/next.config.js lines 36-38). -/
def jsonStringifyBool (b : Bool) : String := if b then "true" else "false"

/-- The three compile-time flag definitions handed to the DefinePlugin
constructor (src/next.config.js lines 35-39): flag name paired with the
serialized literal value. -/
def vueFlagDefs : List (String × String) :=
  [ ("__VUE_OPTIONS_API__", jsonStringifyBool true)
  , ("__VUE_PROD_DEVTOOLS__", jsonStringifyBool false)
  , ("__VUE_PROD_HYDRATION_MISMATCH_DETAILS__", jsonStringifyBool false) ]

/-- A webpack plugin, as far as this layer can observe it: either a
DefinePlugin with its definition table, or any other plugin identified
abstractly. -/
inductive WebpackPlugin where
  | definePlugin (defs : List (String × String))
  | otherPlugin (id : Nat)
deriving DecidableEq, Repr

/-- The DefinePlugin instance constructed by the webpack hook
(src/next.config.js lines 35-39). -/
def vueDefinePlugin : WebpackPlugin := WebpackPlugin.definePlugin vueFlagDefs

/-- The webpack configuration object received by the webpack hook: the
plugins list the hook pushes onto, and every other field of the object,
kept abstract as a value `rest` of an arbitrary type. -/
structure WebpackConfig (α : Type) where
  plugins : List WebpackPlugin
  rest : α
deriving DecidableEq, Repr

/-- The webpack hook of the configuration (src/next.config.js lines 32-42):
it pushes one DefinePlugin with the three Vue feature flags onto the plugins
list of the received config and returns that config; the isServer flag is
received but never read. -/
def webpackHook {α : Type} (config : WebpackConfig α) (_isServer : Bool) :
    WebpackConfig α :=
  { config with plugins := config.plugins ++ [vueDefinePlugin] }

/-- The shape of the exported configuration object (src/next.config.js
lines 4-43).  The webpack hook is polymorphic in the abstract remainder of
the webpack config, so it lives as the top-level definition `webpackHook`
rather than as a field here. -/
structure NextConfig where
  eslint : EslintConfig
  images : ImagesConfig
  headers : Unit → List HeaderRule
  experimental : ExperimentalConfig

/-- The exported configuration object nextConfig
(src/next.config.js lines 4-43, exported at line 45). -/
def nextConfig : NextConfig :=
  { eslint := { ignoreDuringBuilds := true }
    images := { unoptimized := true, domains := ["n8n2.ibhost.online"] }
    headers := headersFn
    experimental := { serverComponentsExternalPackages := ["@n8n/chat"] } }

/-- The keys of the nextConfig object literal, in source order
(src/next.config.js lines 4-43): the object literal declares exactly these
five top-level fields. -/
def nextConfigKeys : List String :=
  ["eslint", "images", "headers", "experimental", "webpack"]

/-- A request path, as the serving layer normalizes it: a string whose first
character is a slash. -/
def isRequestPath (path : String) : Bool := path.data.head? == some '/'

/-- Modelled from the spec: the framework compiles the source pattern of a
header rule with a path-to-regexp matcher that is not part of this
repository.  Per the spec, the pattern "/(.*)" matches a literal slash
followed by a capture group that accepts any, possibly empty, suffix, hence
it matches exactly the strings beginning with a slash, i.e. every request
path. -/
def sourcePatternMatches (pattern path : String) : Bool :=
  if pattern = "/(.*)" then isRequestPath path else false

/-- The headers attached by this layer to the response for a given request
path: the concatenated header lists of every rule returned by the headers
function whose source pattern matches the path. -/
def responseHeaders (path : String) : List Header :=
  ((headersFn ()).filter fun r => sourcePatternMatches r.source path).flatMap
    fun r => r.headers

/-- Outcome of an image request as far as this layer is concerned. -/
inductive ImageResult where
  | servedUnmodified
  | optimized
  | rejected
deriving DecidableEq, Repr

/-- Modelled from the spec: the image-serving runtime of the framework is
not part of this repository.  Per the spec, when `unoptimized` is set every
image is served unmodified and no domain check gate applies at runtime; when
optimization is on, the domains allowlist gates which external hostnames may
be optimized, and a hostname outside it is rejected. -/
def serveImage (cfg : ImagesConfig) (hostname : String) : ImageResult :=
  if cfg.unoptimized then ImageResult.servedUnmodified
  else if hostname ∈ cfg.domains then ImageResult.optimized
  else ImageResult.rejected

/-- Modelled from the spec: the build step of the framework is not part of
this repository.  Per the spec, lint errors fail the build unless
`ignoreDuringBuilds` suppresses them during the build step. -/
def buildSucceeds (cfg : EslintConfig) (hasLintErrors : Bool) : Bool :=
  cfg.ignoreDuringBuilds || !hasLintErrors

/-- The headers function embedded into the error monad.  The source body
(src/next.config.js lines 12-28) is a single return of an array literal and
contains no operation that can throw, so the fallible embedding always
succeeds with the value of `headersFn`. -/
def headersFnE (u : Unit) : Except String (List HeaderRule) :=
  Except.ok (headersFn u)

/-- One evaluation of the configuration layer, observed through its two
outputs: the header rule set produced by the headers function and the flag
definitions handed to the bundling step. -/
def evalConfigLayer (u : Unit) : List HeaderRule × List (String × String) :=
  (nextConfig.headers u, vueFlagDefs)

/-- Claim C1: for every request path P (a string beginning with a slash), the
response for P carries exactly the two headers controlled by this layer,
Cross-Origin-Embedder-Policy with value unsafe-none and
Cross-Origin-Opener-Policy with value same-origin-allow-popups, and no other
header controlled by this layer. -/
theorem c1_response_headers_exact (p : String) (h : isRequestPath p = true) :
    responseHeaders p =
      [ { key := "Cross-Origin-Embedder-Policy", value := "unsafe-none" }
      , { key := "Cross-Origin-Opener-Policy", value := "same-origin-allow-popups" } ] := by
  simp [responseHeaders, headersFn, sourcePatternMatches, allPathsRule, h]

/-- Witness for C1 at a concrete request path of the end-to-end scenario. -/
theorem c1_witness :
    isRequestPath "/contact" = true ∧
    responseHeaders "/contact" =
      [ { key := "Cross-Origin-Embedder-Policy", value := "unsafe-none" }
      , { key := "Cross-Origin-Opener-Policy", value := "same-origin-allow-popups" } ] :=
  ⟨by decide, c1_response_headers_exact "/contact" (by decide)⟩

/-- Claim C2: for every incoming webpack config, the bundling step receives
via the pushed plugin exactly the three compile-time boolean constants,
under their verbatim names, with the serialized literal values true, false
and false respectively. -/
theorem c2_vue_flags {α : Type} (cfg : WebpackConfig α) (isServer : Bool) :
    (webpackHook cfg isServer).plugins =
      cfg.plugins ++
        [ WebpackPlugin.definePlugin
            [ ("__VUE_OPTIONS_API__", "true")
            , ("__VUE_PROD_DEVTOOLS__", "false")
            , ("__VUE_PROD_HYDRATION_MISMATCH_DETAILS__", "false") ] ] := by
  simp [webpackHook, vueDefinePlugin, vueFlagDefs, jsonStringifyBool]

/-- Claim C3: the headers function returns a single rule, and the source
pattern of that rule matches every request path (a string beginning with a
slash), so no path is excluded. -/
theorem c3_pattern_matches_all (p : String) (h : isRequestPath p = true) :
    headersFn () = [allPathsRule] ∧
    sourcePatternMatches allPathsRule.source p = true := by
  refine ⟨rfl, ?_⟩
  simp [sourcePatternMatches, allPathsRule, h]

/-- Witness for C3 at the concrete request path of the root page. -/
theorem c3_witness :
    isRequestPath "/" = true ∧
    (headersFn () = [allPathsRule] ∧
      sourcePatternMatches allPathsRule.source "/" = true) :=
  ⟨by decide, c3_pattern_matches_all "/" (by decide)⟩

/-- Claim C4: evaluating the configuration layer is deterministic: any two
evaluations yield identical header rule sets and identical flag values. -/
theorem c4_deterministic (u v : Unit) :
    evalConfigLayer u = evalConfigLayer v := rfl

/-- Claim C5: image optimization is disabled and the image-source allowlist
contains exactly one external hostname. -/
theorem c5_images :
    nextConfig.images.unoptimized = true ∧
    nextConfig.images.domains = ["n8n2.ibhost.online"] ∧
    nextConfig.images.domains.length = 1 :=
  ⟨rfl, rfl, rfl⟩

/-- Claim C6: with image optimization disabled the allowlist is a runtime
no-op: for every allowlist (including the empty one) and every hostname,
inside the allowlist or not, the request is not rejected and the image is
served unmodified; in particular this holds for the images section of the
exported configuration. -/
theorem c6_allowlist_noop (domains : List String) (hostname : String) :
    serveImage { unoptimized := true, domains := domains } hostname =
      ImageResult.servedUnmodified ∧
    serveImage nextConfig.images hostname = ImageResult.servedUnmodified :=
  ⟨rfl, rfl⟩

/-- Claim C7: with the eslint section of the exported configuration, a build
succeeds whether or not lint errors are present: lint failures never block
the build. -/
theorem c7_lint_ignored (hasLintErrors : Bool) :
    buildSucceeds nextConfig.eslint hasLintErrors = true := rfl

/-- Claim C8: the headers function is total and has no error path: embedded
into the error monad, every call returns ok with the header rule list and
never an error. -/
theorem c8_no_runtime_error (u : Unit) :
    headersFnE u = Except.ok (headersFn u) ∧ (headersFnE u).isOk = true :=
  ⟨rfl, rfl⟩

/-- Claim C9: the webpack hook returns the received config with exactly one
plugin, the Vue DefinePlugin, appended to its plugins list, leaves every
other field of the config unchanged, and behaves identically for both values
of the isServer flag. -/
theorem c9_frame {α : Type} (cfg : WebpackConfig α) (isServer : Bool) :
    (webpackHook cfg isServer).plugins = cfg.plugins ++ [vueDefinePlugin] ∧
    (webpackHook cfg isServer).rest = cfg.rest ∧
    webpackHook cfg isServer = webpackHook cfg true :=
  ⟨rfl, rfl, rfl⟩

/-- Claim C10: the exported configuration object has exactly the top-level
fields eslint, images, headers, experimental and webpack, has no output
field, and its experimental section sets serverComponentsExternalPackages to
the one-element list containing the chat package. -/
theorem c10_top_level_fields :
    nextConfigKeys = ["eslint", "images", "headers", "experimental", "webpack"] ∧
    "output" ∉ nextConfigKeys ∧
    nextConfig.experimental.serverComponentsExternalPackages = ["@n8n/chat"] :=
  ⟨rfl, by decide, rfl⟩
